import Mathlib

/-!
Shallow embedding of the application bootstrap in src/lib/gui/etcher.ts.

The file registers handlers on the Electron application object ("ready",
"window-all-closed", "activate", and triple-duplicated "before-quit" /
"will-quit" / "quit" handlers) and, inside the "ready" handler, performs
architecture / operating-system / OS-version guards, reads two persisted
settings, creates the single BrowserWindow and registers its lifecycle
handlers ("closed", "ready-to-show", "show", "hide", "minimize").

Handlers are embedded as functions from the nullable main-window handle to
an effect trace (a list of calls to external collaborators, in order), and
the "ready" handler as a function from the startup environment to its
effect trace.  An uncaught exception inside a handler aborts it; this is
represented by a final "thrown" effect, after which the trace ends.
-/

/-- Options record passed to the BrowserWindow constructor
(src/lib/gui/etcher.ts lines 106-133).  The field named "show" in the
source is written «show» because show is a Lean keyword. -/
structure WindowOptions where
  width : Nat
  height : Nat
  «show» : Bool
  minWidth : Nat
  minHeight : Nat
  backgroundColor : String
  title : String
  titleBarStyle : String
  nodeIntegration : Bool
  contextIsolation : Bool
  webviewTag : Bool
  sandbox : Bool
  nativeWindowOpen : Bool
  enableRemoteModule : Bool
deriving Repr, DecidableEq

/-- A handle to a created BrowserWindow instance. -/
structure BrowserWindow where
  id : Nat
deriving Repr, DecidableEq

/-- One observable call to an external collaborator, in the order the source
makes it.  "logException" is the analytics collaborator
(lib/gui/app/modules/analytics), "showErrorBox" the error-dialog
collaborator (lib/gui/app/os/dialog), "appExit" / "appQuit" /
"preventDefault" / "emitReady" are calls on the Electron app object,
"setAutoDownload" / "setAutoInstallOnAppQuit" / "checkForUpdates" are calls
on the electron-updater autoUpdater object, and "thrown" records an uncaught
exception that aborts the enclosing handler.  "disableAnalytics" is the
analytics-disabling action the source comment on line 94 announces; no code
path produces it (see analyticsBranch). -/
inductive Effect where
  | logException (message : String)
  | showErrorBox (message : String)
  | appExit (code : Nat)
  | thrown (message : String)
  | disableAnalytics
  | setAutoDownload (value : Bool)
  | setAutoInstallOnAppQuit (value : Bool)
  | createWindow (opts : WindowOptions)
  | buildWindowMenu
  | loadURL (url : String)
  | openDevTools
  | showWindow
  | hideWindow
  | appQuit
  | checkForUpdates
  | preventDefault
  | emitReady
deriving Repr, DecidableEq

/-- Startup environment read by the "ready" handler.  osRelease is the value
os.release() would return (the actual operating-system version, e.g.
"3.9.0"); the source file imports only platform from the os module and never
reads the OS release, so no definition below consults this field. -/
structure Env where
  arch : String
  platform : String
  osRelease : String
  errorReporting : Bool
  updatesEnabled : Bool
  isDevelopment : Bool
  dirname : String
deriving Repr, DecidableEq

/-- Modelled from the spec: the GENERAL_ERROR exit status exported by
lib/shared/exit-codes, a module of this repository that is not under src/.
The spec describes it as "a general-error exit status", "a fixed exit code",
fatal and non-zero; only its identity matters to the theorems below. -/
def GENERAL_ERROR : Nat := 1

/-- The processor-architecture allow-list, inlined in the source at line 60. -/
def SUPPORTED_ARCHITECTURES : List String := ["armv7l", "x64"]

/-- The operating-system allow-list, inlined in the source at line 69. -/
def SUPPORTED_PLATFORMS : List String := ["darwin", "linux", "win32"]

/-- The minimum-version table of src/lib/gui/etcher.ts lines 78-82.  Lookup
of an absent key in a JavaScript object yields undefined, embedded as none. -/
def MINIMUM_SUPPORTED_VERSIONS : String → Option String
  | "darwin" => some "10.11.0"
  | "linux" => some "3.10.0"
  | "win32" => some "6.1.0"
  | _ => none

/-- Numeric value of one dot-separated component of a version string: none
unless the component is a nonempty run of decimal digits. -/
def parseVersionComponent (cs : List Char) : Option Nat :=
  if cs.isEmpty then none
  else cs.foldl
    (fun acc c =>
      acc.bind (fun n => if c.isDigit then some (n * 10 + (c.toNat - 48)) else none))
    (some 0)

/-- Split a character list on a separator character. -/
def splitOnChar (sep : Char) : List Char → List (List Char)
  | [] => [[]]
  | c :: rest =>
    let groups := splitOnChar sep rest
    if c = sep then [] :: groups
    else
      match groups with
      | [] => [[c]]
      | g :: gs => (c :: g) :: gs

/-- Version parser of the semver library, restricted to plain numeric
MAJOR.MINOR.PATCH versions (every version string in this program has that
shape); any other string is an invalid version.  The semver library throws
TypeError on an invalid version, embedded as none here. -/
def parseSemver (s : String) : Option (Nat × Nat × Nat) :=
  match (splitOnChar '.' s.data).mapM parseVersionComponent with
  | some [a, b, c] => some (a, b, c)
  | _ => none

/-- Lexicographic strict order on parsed MAJOR.MINOR.PATCH triples. -/
def versionLt : Nat × Nat × Nat → Nat × Nat × Nat → Bool
  | (a1, b1, c1), (a2, b2, c2) =>
    a1 < a2 || (a1 == a2 && (b1 < b2 || (b1 == b2 && c1 < c2)))

/-- semver.lt of the semver library: true when the first version is strictly
older than the second; throws (Except.error) when either argument is not a
valid version. -/
def semverLt (a b : String) : Except String Bool :=
  match parseSemver a with
  | none => .error ("TypeError: Invalid Version: " ++ a)
  | some va =>
    match parseSemver b with
    | none => .error ("TypeError: Invalid Version: " ++ b)
    | some vb => .ok (versionLt va vb)

/-- Error message built at src/lib/gui/etcher.ts line 61. -/
def archErrorMessage (arch : String) : String :=
  "Etcher does not support the current architecture: " ++ arch

/-- Error message built at src/lib/gui/etcher.ts line 70. -/
def osErrorMessage (platform : String) : String :=
  "Etcher does not support the current operating system: " ++ platform

/-- Error message built at src/lib/gui/etcher.ts line 85. -/
def versionErrorMessage (platform minimumVersion : String) : String :=
  "Etcher does not support " ++ platform ++ " versions older than " ++ minimumVersion

/-- Each fatal startup path of the guard (spec section 4.1): log the
condition, show a blocking error dialog, terminate with the general-error
code.  The source repeats this three-call sequence verbatim at lines 62-64,
71-73 and 86-88. -/
def guardFailure (message : String) : List Effect :=
  [.logException message, .showErrorBox message, .appExit GENERAL_ERROR]

/-- The branch at src/lib/gui/etcher.ts lines 93-96.  The condition reads
the persisted errorReporting setting and the development flag; the body
under the comment "Disable analytics" consists of a bare await with no
operand, so it performs no action in either case. -/
def analyticsBranch (errorReporting isDevelopment : Bool) : List Effect :=
  if !errorReporting && !isDevelopment then [] else []

/-- The branch at src/lib/gui/etcher.ts lines 99-103: when the persisted
updatesEnabled setting is false, set autoUpdater.autoDownload and
autoUpdater.autoInstallOnAppQuit to false. -/
def updatesBranch (updatesEnabled : Bool) : List Effect :=
  if !updatesEnabled then [.setAutoDownload false, .setAutoInstallOnAppQuit false] else []

/-- The two settings-gated branches, in source order (lines 92-103). -/
def settingsPhase (env : Env) : List Effect :=
  analyticsBranch env.errorReporting env.isDevelopment
    ++ updatesBranch env.updatesEnabled

/-- The options object passed to the BrowserWindow constructor at
src/lib/gui/etcher.ts lines 106-133. -/
def mainWindowOptions : WindowOptions :=
  { width := 1280
    height := 720
    «show» := false
    minWidth := 1280
    minHeight := 720
    backgroundColor := "#ffffff"
    title := "Etcher"
    titleBarStyle := "hiddenInset"
    nodeIntegration := true
    contextIsolation := false
    webviewTag := true
    sandbox := true
    nativeWindowOpen := true
    enableRemoteModule := true }

/-- The URL loaded into the window at src/lib/gui/etcher.ts line 139:
a local document resolved relative to the install directory. -/
def indexURL (dirname : String) : String :=
  "file://" ++ dirname ++ "/app/index.html"

/-- Window creation portion of the "ready" handler (lines 105-144): construct
the window, build its menu through the external menu collaborator, load the
local index document, and open the developer tools in development builds. -/
def createWindowPhase (env : Env) : List Effect :=
  [.createWindow mainWindowOptions, .buildWindowMenu, .loadURL (indexURL env.dirname)]
    ++ (if env.isDevelopment then [.openDevTools] else [])

/-- The handler registered for the application "ready" event
(src/lib/gui/etcher.ts lines 58-177), as the effect trace it produces on a
given startup environment.  The three guards run in source order; note that
line 84 passes platform() — the operating-system NAME returned by
os.platform() — as the first argument of semver.lt, not the OS release, so
the version comparison receives a string such as "linux" where a version is
expected.  A thrown exception rejects the async handler and ends the trace. -/
def readyHandler (env : Env) : List Effect :=
  if env.arch ∉ SUPPORTED_ARCHITECTURES then
    guardFailure (archErrorMessage env.arch)
  else if env.platform ∉ SUPPORTED_PLATFORMS then
    guardFailure (osErrorMessage env.platform)
  else
    match MINIMUM_SUPPORTED_VERSIONS env.platform with
    | none => [.thrown "TypeError: Invalid Version: undefined"]
    | some minimumVersion =>
      match semverLt env.platform minimumVersion with
      | .error e => [.thrown e]
      | .ok true => guardFailure (versionErrorMessage env.platform minimumVersion)
      | .ok false => settingsPhase env ++ createWindowPhase env

/-- A handler takes the current nullable main-window handle and yields the
updated handle together with its effect trace. -/
def Handler : Type := Option BrowserWindow → Option BrowserWindow × List Effect

/-- Message of the TypeError raised when a property of null is read. -/
def nullDereferenceMessage (property : String) : String :=
  "TypeError: Cannot read properties of null (reading " ++ property ++ ")"

/-- The module-level mainWindow variable (line 53) before the "ready" handler
has assigned it: no window exists yet. -/
def initialMainWindow : Option BrowserWindow := none

/-- The "closed" handler (lines 147-152): dereference the window object by
setting mainWindow to null. -/
def closedHandler : Handler := fun _ => (none, [])

/-- The "ready-to-show" handler (lines 155-158): call mainWindow.show() with
no null check on the global handle. -/
def readyToShowHandler : Handler := fun mw =>
  match mw with
  | none => (none, [.thrown (nullDereferenceMessage "show")])
  | some w => (some w, [.showWindow])

/-- The "show" handler (lines 161-164): call autoUpdater.checkForUpdates(). -/
def showHandler : Handler := fun mw => (mw, [.checkForUpdates])

/-- The "hide" handler (lines 167-170): quit the app when the window hides. -/
def hideHandler : Handler := fun mw => (mw, [.appQuit])

/-- The "minimize" handler (lines 173-176): call mainWindow.hide() with no
null check on the global handle. -/
def minimizeHandler : Handler := fun mw =>
  match mw with
  | none => (none, [.thrown (nullDereferenceMessage "hide")])
  | some w => (some w, [.hideWindow])

/-- The window lifecycle registrations of lines 146-176, in source order. -/
def mainWindowRegistrations : List (String × Handler) :=
  [("closed", closedHandler),
   ("ready-to-show", readyToShowHandler),
   ("show", showHandler),
   ("hide", hideHandler),
   ("minimize", minimizeHandler)]

/-- The "window-all-closed" handler (lines 180-186): quit unless the platform
is darwin. -/
def windowAllClosedHandler (platform : String) : List Effect :=
  if platform ≠ "darwin" then [.appQuit] else []

/-- The "activate" handler (lines 188-194): re-emit "ready" when no window
exists. -/
def activateHandler : Handler := fun mw =>
  match mw with
  | none => (none, [.emitReady])
  | some w => (some w, [])

/-- Modelled from the spec: the source file ends mid-statement at line 265,
truncated immediately after the token mainWindow inside the ninth quit-type
handler; the missing remainder of that handler is not under src/.  The spec
states the pattern is "duplicated three times verbatim": each before-quit /
will-quit / quit handler calls event.preventDefault() and then
mainWindow.hide() with no null check (lines 197-265), so all nine registered
handlers share this body.  On a null handle the preventDefault call still
runs, then the hide dereference throws. -/
def quitPreventHandler : Handler := fun mw =>
  match mw with
  | none => (none, [.preventDefault, .thrown (nullDereferenceMessage "hide")])
  | some w => (some w, [.preventDefault, .hideWindow])

/-- The application quit-type registrations of lines 197-265, in source
order: the before-quit / will-quit / quit trio repeated three times. -/
def appQuitEventRegistrations : List (String × Handler) :=
  [("before-quit", quitPreventHandler),
   ("will-quit", quitPreventHandler),
   ("quit", quitPreventHandler),
   ("before-quit", quitPreventHandler),
   ("will-quit", quitPreventHandler),
   ("quit", quitPreventHandler),
   ("before-quit", quitPreventHandler),
   ("will-quit", quitPreventHandler),
   ("quit", quitPreventHandler)]

/-- Whether a trace contains a window-creation effect. -/
def createsWindow (trace : List Effect) : Bool :=
  trace.any (fun e => match e with | .createWindow _ => true | _ => false)

/-- The startup trace never contains an update check: the only call to
autoUpdater.checkForUpdates in the source is inside the "show" handler. -/
theorem checkForUpdates_not_in_startup (env : Env) :
    Effect.checkForUpdates ∉ readyHandler env := by
  unfold readyHandler guardFailure settingsPhase analyticsBranch updatesBranch
    createWindowPhase
  repeat' split
  all_goals simp

/-- The startup trace never reveals the window: the only call to
mainWindow.show() in the source is inside the "ready-to-show" handler. -/
theorem showWindow_not_in_startup (env : Env) :
    Effect.showWindow ∉ readyHandler env := by
  unfold readyHandler guardFailure settingsPhase analyticsBranch updatesBranch
    createWindowPhase
  repeat' split
  all_goals simp

/-- The startup trace never disables the analytics collector: the branch
announcing it performs no action. -/
theorem disableAnalytics_not_in_startup (env : Env) :
    Effect.disableAnalytics ∉ readyHandler env := by
  unfold readyHandler guardFailure settingsPhase analyticsBranch updatesBranch
    createWindowPhase
  repeat' split
  all_goals simp

/-- C1: each registered "before-quit", "will-quit" and "quit" handler cancels
the default termination action with event.preventDefault() and hides the main
window instead; since every such handler calls preventDefault first, the
application never completes termination through the normal quit path.  The
nine registrations (the trio duplicated three times) all share the same
verbatim body. -/
theorem quit_handlers_prevent_termination_and_hide :
    appQuitEventRegistrations =
      [("before-quit", quitPreventHandler),
       ("will-quit", quitPreventHandler),
       ("quit", quitPreventHandler),
       ("before-quit", quitPreventHandler),
       ("will-quit", quitPreventHandler),
       ("quit", quitPreventHandler),
       ("before-quit", quitPreventHandler),
       ("will-quit", quitPreventHandler),
       ("quit", quitPreventHandler)] ∧
    (∀ w : BrowserWindow,
      quitPreventHandler (some w) = (some w, [.preventDefault, .hideWindow])) ∧
    (∀ mw : Option BrowserWindow,
      ((quitPreventHandler mw).2).head? = some .preventDefault) := by
  refine ⟨rfl, fun w => rfl, fun mw => ?_⟩
  cases mw <;> rfl

/-- C2: for every processor architecture outside the allow-list, the "ready"
handler logs an exception, shows the blocking error dialog, exits with the
general-error code, and creates no window. -/
theorem unsupported_arch_exits_without_window (env : Env)
    (h : env.arch ∉ SUPPORTED_ARCHITECTURES) :
    readyHandler env =
      [.logException (archErrorMessage env.arch),
       .showErrorBox (archErrorMessage env.arch),
       .appExit GENERAL_ERROR] ∧
    createsWindow (readyHandler env) = false := by
  have htrace : readyHandler env = guardFailure (archErrorMessage env.arch) := by
    unfold readyHandler
    rw [if_pos h]
  exact ⟨htrace, by rw [htrace]; rfl⟩

/-- Environment with the unsupported architecture "ia32" on linux. -/
def unsupportedArchEnv : Env :=
  { arch := "ia32", platform := "linux", osRelease := "4.15.0",
    errorReporting := true, updatesEnabled := true, isDevelopment := false,
    dirname := "/opt/etcher" }

/-- Witness for C2 at the concrete architecture "ia32". -/
theorem unsupported_arch_exits_without_window_witness :
    readyHandler unsupportedArchEnv =
      [.logException (archErrorMessage "ia32"),
       .showErrorBox (archErrorMessage "ia32"),
       .appExit GENERAL_ERROR] ∧
    createsWindow (readyHandler unsupportedArchEnv) = false :=
  unsupported_arch_exits_without_window unsupportedArchEnv (by decide)

/-- Environment of the C3 failing input: a supported platform ("linux", on a
supported architecture) whose OS release "3.9.0" is older than the "3.10.0"
floor of the minimum-version table. -/
def oldLinuxEnv : Env :=
  { arch := "x64", platform := "linux", osRelease := "3.9.0",
    errorReporting := true, updatesEnabled := true, isDevelopment := false,
    dirname := "/opt/etcher" }

/-- C3 evaluated at its failing input: line 84 passes the platform name
(not the OS release) to semver.lt, so on linux at release 3.9.0 the version
comparison throws TypeError Invalid Version and the handler aborts; it does
not log the version error, show the dialog, or exit with the general-error
code, and the trace is independent of the actual OS release. -/
theorem version_guard_throws_instead_of_exiting :
    oldLinuxEnv.platform = "linux" ∧
    oldLinuxEnv.osRelease = "3.9.0" ∧
    MINIMUM_SUPPORTED_VERSIONS "linux" = some "3.10.0" ∧
    semverLt "linux" "3.10.0" = .error "TypeError: Invalid Version: linux" ∧
    readyHandler oldLinuxEnv = [.thrown "TypeError: Invalid Version: linux"] ∧
    Effect.appExit GENERAL_ERROR ∉ readyHandler oldLinuxEnv ∧
    Effect.showErrorBox (versionErrorMessage "linux" "3.10.0") ∉ readyHandler oldLinuxEnv ∧
    Effect.logException (versionErrorMessage "linux" "3.10.0") ∉ readyHandler oldLinuxEnv ∧
    readyHandler { oldLinuxEnv with osRelease := "99.0.0" } = readyHandler oldLinuxEnv := by
  refine ⟨rfl, rfl, rfl, rfl, rfl, by decide, by decide, by decide, rfl⟩

/-- Environment of the C4 failing input: analytics opted out
(errorReporting false) in a non-development build. -/
def analyticsOptOutEnv : Env :=
  { arch := "x64", platform := "linux", osRelease := "4.15.0",
    errorReporting := false, updatesEnabled := true, isDevelopment := false,
    dirname := "/opt/etcher" }

/-- C4 evaluated at its failing input: the branch guarded by errorReporting
false and not development performs no action (its body is a bare await under
the comment announcing "Disable analytics"), and no startup trace ever
contains a disable-analytics action. -/
theorem analytics_branch_disables_nothing :
    analyticsBranch false false = [] ∧
    Effect.disableAnalytics ∉ readyHandler analyticsOptOutEnv ∧
    (∀ env : Env, Effect.disableAnalytics ∉ readyHandler env) :=
  ⟨rfl, disableAnalytics_not_in_startup analyticsOptOutEnv,
   disableAnalytics_not_in_startup⟩

/-- C5: when the persisted updatesEnabled setting reads false, the "ready"
handler sets autoUpdater.autoDownload and autoUpdater.autoInstallOnAppQuit to
false, those two writes precede window creation in the post-guard trace, and
no update check occurs anywhere during startup — the only update-check site
in the program is the window "show" handler, which can run only after the
window has been shown. -/
theorem updates_disabled_flags_before_any_check (env : Env)
    (h : env.updatesEnabled = false) :
    updatesBranch env.updatesEnabled =
      [.setAutoDownload false, .setAutoInstallOnAppQuit false] ∧
    settingsPhase env ++ createWindowPhase env =
      [.setAutoDownload false, .setAutoInstallOnAppQuit false,
       .createWindow mainWindowOptions, .buildWindowMenu,
       .loadURL (indexURL env.dirname)]
        ++ (if env.isDevelopment then [.openDevTools] else []) ∧
    Effect.checkForUpdates ∉ readyHandler env ∧
    Effect.checkForUpdates ∉ settingsPhase env ++ createWindowPhase env ∧
    (showHandler none).2 = [Effect.checkForUpdates] := by
  refine ⟨?_, ?_, checkForUpdates_not_in_startup env, ?_, rfl⟩
  · simp [updatesBranch, h]
  · simp [settingsPhase, analyticsBranch, updatesBranch, createWindowPhase, h]
  · simp [settingsPhase, analyticsBranch, updatesBranch, createWindowPhase, h]

/-- Environment with automatic updates opted out. -/
def updatesOptOutEnv : Env :=
  { arch := "x64", platform := "linux", osRelease := "4.15.0",
    errorReporting := true, updatesEnabled := false, isDevelopment := false,
    dirname := "/opt/etcher" }

/-- Witness for C5 at a concrete environment with updatesEnabled false. -/
theorem updates_disabled_flags_before_any_check_witness :
    updatesBranch updatesOptOutEnv.updatesEnabled =
      [.setAutoDownload false, .setAutoInstallOnAppQuit false] ∧
    settingsPhase updatesOptOutEnv ++ createWindowPhase updatesOptOutEnv =
      [.setAutoDownload false, .setAutoInstallOnAppQuit false,
       .createWindow mainWindowOptions, .buildWindowMenu,
       .loadURL (indexURL updatesOptOutEnv.dirname)]
        ++ (if updatesOptOutEnv.isDevelopment then [.openDevTools] else []) ∧
    Effect.checkForUpdates ∉ readyHandler updatesOptOutEnv ∧
    Effect.checkForUpdates ∉ settingsPhase updatesOptOutEnv ++ createWindowPhase updatesOptOutEnv ∧
    (showHandler none).2 = [Effect.checkForUpdates] :=
  updates_disabled_flags_before_any_check updatesOptOutEnv rfl

/-- C6: the window lifecycle registrations contain exactly one handler for
the "show" event, and that handler performs exactly one invocation of
autoUpdater.checkForUpdates each time it runs. -/
theorem show_event_exactly_one_update_check :
    mainWindowRegistrations =
      [("closed", closedHandler),
       ("ready-to-show", readyToShowHandler),
       ("show", showHandler),
       ("hide", hideHandler),
       ("minimize", minimizeHandler)] ∧
    (mainWindowRegistrations.map Prod.fst).count "show" = 1 ∧
    (∀ mw : Option BrowserWindow,
      ((showHandler mw).2).count Effect.checkForUpdates = 1) := by
  refine ⟨rfl, by decide, fun mw => rfl⟩

/-- C7: the "window-all-closed" handler quits the application exactly when
the platform is not darwin, and does nothing on darwin. -/
theorem window_all_closed_quits_iff_not_darwin :
    (∀ p : String, Effect.appQuit ∈ windowAllClosedHandler p ↔ p ≠ "darwin") ∧
    windowAllClosedHandler "darwin" = [] := by
  refine ⟨fun p => ?_, rfl⟩
  unfold windowAllClosedHandler
  by_cases h : p = "darwin" <;> simp [h]

/-- C8: the main window is constructed hidden (show false) with default and
minimum dimensions 1280 by 720, the creation sequence attaches the menu via
the external menu builder and loads the local index document, and the window
is revealed (showWindow) only by the "ready-to-show" handler: no startup
trace and no other handler ever emits showWindow. -/
theorem window_created_hidden_revealed_on_ready_to_show :
    mainWindowOptions.«show» = false ∧
    mainWindowOptions.width = 1280 ∧
    mainWindowOptions.height = 720 ∧
    mainWindowOptions.minWidth = 1280 ∧
    mainWindowOptions.minHeight = 720 ∧
    (∀ env : Env, createWindowPhase env =
      [.createWindow mainWindowOptions, .buildWindowMenu,
       .loadURL (indexURL env.dirname)]
        ++ (if env.isDevelopment then [.openDevTools] else [])) ∧
    (∀ d : String, indexURL d = "file://" ++ d ++ "/app/index.html") ∧
    (∀ w : BrowserWindow, readyToShowHandler (some w) = (some w, [.showWindow])) ∧
    (∀ env : Env, Effect.showWindow ∉ readyHandler env) ∧
    (∀ mw : Option BrowserWindow,
      Effect.showWindow ∉ (showHandler mw).2 ∧
      Effect.showWindow ∉ (hideHandler mw).2 ∧
      Effect.showWindow ∉ (minimizeHandler mw).2 ∧
      Effect.showWindow ∉ (closedHandler mw).2 ∧
      Effect.showWindow ∉ (activateHandler mw).2 ∧
      Effect.showWindow ∉ (quitPreventHandler mw).2) ∧
    (∀ p : String, Effect.showWindow ∉ windowAllClosedHandler p) := by
  refine ⟨rfl, rfl, rfl, rfl, rfl, fun env => rfl, fun d => rfl, fun w => rfl,
    showWindow_not_in_startup, fun mw => ?_, fun p => ?_⟩
  · cases mw <;> refine ⟨by simp [showHandler], by simp [hideHandler],
      by simp [minimizeHandler], by simp [closedHandler],
      by simp [activateHandler], by simp [quitPreventHandler]⟩
  · unfold windowAllClosedHandler
    by_cases h : p = "darwin" <;> simp [h]

/-- C9: every quit-type handler dereferences the global mainWindow handle
with no null check: the handle starts as null, the "closed" handler resets
it to null, and a quit-type handler invoked while it is null calls
preventDefault and then throws a TypeError on the hide dereference instead
of hiding a window.  All nine quit-type registrations use this handler. -/
theorem quit_handlers_null_dereference_when_no_window :
    initialMainWindow = none ∧
    (∀ mw : Option BrowserWindow, (closedHandler mw).1 = none) ∧
    quitPreventHandler none =
      (none, [.preventDefault, .thrown (nullDereferenceMessage "hide")]) ∧
    Effect.hideWindow ∉ (quitPreventHandler none).2 ∧
    appQuitEventRegistrations.map Prod.snd = List.replicate 9 quitPreventHandler := by
  refine ⟨rfl, fun mw => rfl, rfl, by decide, rfl⟩

/-- C10: every platform on the operating-system allow-list has an entry in
the minimum-version table, so the lookup at line 83 never yields undefined
for a platform that passed the allow-list guard. -/
theorem allowlisted_platforms_have_minimum_versions (p : String)
    (h : p ∈ SUPPORTED_PLATFORMS) :
    (MINIMUM_SUPPORTED_VERSIONS p).isSome = true ∧
    MINIMUM_SUPPORTED_VERSIONS "darwin" = some "10.11.0" ∧
    MINIMUM_SUPPORTED_VERSIONS "linux" = some "3.10.0" ∧
    MINIMUM_SUPPORTED_VERSIONS "win32" = some "6.1.0" := by
  refine ⟨?_, rfl, rfl, rfl⟩
  simp [SUPPORTED_PLATFORMS] at h
  rcases h with h | h | h <;> subst h <;> rfl

/-- Witness for C10 at the concrete platform "linux". -/
theorem allowlisted_platforms_have_minimum_versions_witness :
    (MINIMUM_SUPPORTED_VERSIONS "linux").isSome = true ∧
    MINIMUM_SUPPORTED_VERSIONS "darwin" = some "10.11.0" ∧
    MINIMUM_SUPPORTED_VERSIONS "linux" = some "3.10.0" ∧
    MINIMUM_SUPPORTED_VERSIONS "win32" = some "6.1.0" :=
  allowlisted_platforms_have_minimum_versions "linux" (by decide)
